import Mathlib

/-!
Verification of the inference.sh JavaScript/TypeScript SDK update-delivery core.

The definitions below are shallow embeddings of the SDK source:
* `JsonVal` and the `isPartialDataWrapper` predicate from `src/http/stream.ts`
  and `src/stream.ts` (the two files contain the same predicate);
* the `onmessage` dispatch of both `StreamManager` generations;
* the `StreamManager` reconnect state machine (`src/http/stream.ts` /
  `src/stream.ts`, whose lifecycle code is identical);
* the `run()` promise settlement logic of `src/client.ts`;
* the `PollManager` polling loop of `src/http/poll.ts`;
* the client tool dispatch of `updateMessage` in `src/agent/actions.ts`.

Callbacks are modelled as emitted event lists; timers as boolean slots that a
later step may fire; the transport and poll function as outcome scripts.
-/

/-! ### JSON values, modelling the result of `JSON.parse` -/

inductive JsonVal where
  | null
  | bool (b : Bool)
  | num (n : Int)
  | str (s : String)
  | arr (elems : List JsonVal)
  | obj (entries : List (String × JsonVal))

/-- First-match association lookup on an object's entry list (the parsed
objects built in this development have pairwise-distinct keys, where first
and last match coincide). -/
def lookupKey : List (String × JsonVal) → String → Option JsonVal
  | [], _ => none
  | (k2, v) :: rest, k => if k2 == k then some v else lookupKey rest k

/-- JavaScript `typeof v === "object"`: true for objects, arrays and `null`. -/
def jsTypeofIsObject : JsonVal → Bool
  | .null => true
  | .arr _ => true
  | .obj _ => true
  | _ => false

/-- JavaScript `v === null`. -/
def isNullVal : JsonVal → Bool
  | .null => true
  | _ => false

/-- The JavaScript `"k" in v` operator at the keys used by the SDK
(`"data"`, `"fields"`): own keys of a plain object. A parsed array exposes
only numeric index keys (and `length`), none of which is `"data"` or
`"fields"`, so for these queries it has no matching key. -/
def jsHasKey : JsonVal → String → Bool
  | .obj entries, k => entries.any (fun e => e.fst == k)
  | _, _ => false

/-- JavaScript property read `v[k]` for the object case. -/
def jsGetKey : JsonVal → String → Option JsonVal
  | .obj entries, k => lookupKey entries k
  | _, _ => none

/-- `Array.isArray` applied to an optional property value. -/
def isArrayVal : Option JsonVal → Bool
  | some (.arr _) => true
  | _ => false

/-- Is the value itself a plain object? -/
def isObjVal : JsonVal → Bool
  | .obj _ => true
  | _ => false

/-- Translation of `isPartialDataWrapper` (`src/http/stream.ts` lines 25-33,
identical in `src/stream.ts`):
`typeof parsed === 'object' && parsed !== null && 'data' in parsed &&
 'fields' in parsed && Array.isArray(parsed.fields)`. -/
def isPartialDataWrapper (parsed : JsonVal) : Bool :=
  jsTypeofIsObject parsed && !(isNullVal parsed) &&
  jsHasKey parsed "data" && jsHasKey parsed "fields" &&
  isArrayVal (jsGetKey parsed "fields")

/-- Modelled from the spec: the claim's classification predicate, which asks
for "a `data` property whose value is an object and a `fields` property whose
value is an array". Written from the spec's words for comparison with the
source predicate `isPartialDataWrapper`. -/
def isPartialSpecPredicate (parsed : JsonVal) : Bool :=
  (match jsGetKey parsed "data" with
   | some (.obj _) => true
   | _ => false) &&
  isArrayVal (jsGetKey parsed "fields")

/-- How a parsed stream message is classified by the `onmessage` handlers. -/
inductive UpdateKind where
  | partialUpdate
  | fullUpdate
deriving DecidableEq

/-- The classification both `onmessage` handlers perform: the
`isPartialDataWrapper` branch is Partial, everything else is Full. -/
def classifyMessage (parsed : JsonVal) : UpdateKind :=
  if isPartialDataWrapper parsed then UpdateKind.partialUpdate
  else UpdateKind.fullUpdate

/-- `parsed.data` as passed to the callbacks in the wrapper branch (in that
branch the key is always present). -/
def unwrapData (parsed : JsonVal) : JsonVal :=
  (jsGetKey parsed "data").getD JsonVal.null

/-- `parsed.fields` as passed to `onPartialData` (in the wrapper branch it is
always an array). -/
def wrapperFields (parsed : JsonVal) : List JsonVal :=
  match jsGetKey parsed "fields" with
  | some (.arr fs) => fs
  | _ => []

/-! ### The `onmessage` handlers of the two `StreamManager` generations -/

/-- One callback invocation performed by an `onmessage` handler. -/
inductive CbEvent where
  | onDataEvt (v : JsonVal)
  | onPartialDataEvt (v : JsonVal) (fields : List JsonVal)

/-- `source.onmessage` of `src/http/stream.ts` (lines 185-206), after a
successful `JSON.parse`, with callback registration given as two flags:
in the wrapper branch `onPartialData` is called if provided, otherwise
`onData` receives the extracted `parsed.data`; otherwise `onData` receives
the parsed message itself. -/
def onMessageHttpStream (hasOnData hasOnPartialData : Bool) (parsed : JsonVal) :
    List CbEvent :=
  if isPartialDataWrapper parsed then
    if hasOnPartialData then
      [CbEvent.onPartialDataEvt (unwrapData parsed) (wrapperFields parsed)]
    else if hasOnData then [CbEvent.onDataEvt (unwrapData parsed)]
    else []
  else if hasOnData then [CbEvent.onDataEvt parsed]
  else []

/-- `source.onmessage` of `src/stream.ts` (lines 130-151), after a successful
`JSON.parse`: in the wrapper branch `onPartialData` is called if provided and
then `onData` is always called with the extracted data; otherwise `onData`
receives the parsed message itself. -/
def onMessageRootStream (hasOnData hasOnPartialData : Bool) (parsed : JsonVal) :
    List CbEvent :=
  if isPartialDataWrapper parsed then
    (if hasOnPartialData then
      [CbEvent.onPartialDataEvt (unwrapData parsed) (wrapperFields parsed)]
     else []) ++
    (if hasOnData then [CbEvent.onDataEvt (unwrapData parsed)] else [])
  else if hasOnData then [CbEvent.onDataEvt parsed]
  else []

/-! ### The `StreamManager` reconnect state machine

Translated from `src/http/stream.ts` (the lifecycle code of `src/stream.ts`
is line-for-line the same). Callbacks are recorded as events; the two
`setTimeout` slots are booleans that a separate step may fire; the injected
`createEventSource()` is a per-call outcome. -/

/-- Constructor options that drive the reconnect policy (`autoReconnect`,
`maxReconnects`; the constructor always fills the defaults, so both are
total here). -/
structure SMConfig where
  autoReconnect : Bool
  maxReconnects : Nat

/-- The mutable fields of a `StreamManager` instance. A `setTimeout` handle
is modelled by whether the slot is non-null and still pending. -/
structure SMState where
  initialConnectionAttempts : Nat
  isConnected : Bool
  isStopped : Bool
  hasReconnectTimer : Bool
  hasStopTimer : Bool
  hasEventSource : Bool
deriving DecidableEq

/-- Observable effects of a lifecycle step, in program order: the optional
callbacks (always treated as registered) and each `createEventSource()` call. -/
inductive SMEvent where
  | evOnError
  | evOnStart
  | evOnStop
  | evOpenAttempt
deriving DecidableEq

/-- Field initializers of a fresh `StreamManager`. -/
def newSMState : SMState :=
  { initialConnectionAttempts := 0
    isConnected := false
    isStopped := false
    hasReconnectTimer := false
    hasStopTimer := false
    hasEventSource := false }

/-- `clearTimeouts()`: clears both timer slots. -/
def StreamManager.clearTimeouts (s : SMState) : SMState :=
  { s with hasReconnectTimer := false, hasStopTimer := false }

/-- `closeEventSource()`: closes and nulls the transport. -/
def StreamManager.closeEventSource (s : SMState) : SMState :=
  { s with hasEventSource := false }

/-- `cleanup()` (lines 123-128): clear timers, close the transport, reset
`isConnected`, then call `onStop`. -/
def StreamManager.cleanup (s : SMState) : SMState × List SMEvent :=
  ({ StreamManager.clearTimeouts (StreamManager.closeEventSource s) with
      isConnected := false },
   [SMEvent.evOnStop])

/-- `stop()` (lines 142-145): set `isStopped`, then `cleanup()`. There is no
already-stopped guard. -/
def StreamManager.stop (s : SMState) : SMState × List SMEvent :=
  StreamManager.cleanup { s with isStopped := true }

/-- `scheduleReconnect()` (lines 147-166) up to the timer body: returns
whether a reconnect timer was armed. The timer body itself is
`StreamManager.reconnectTimerFire`. -/
def StreamManager.scheduleReconnect (cfg : SMConfig) (s : SMState) :
    SMState × Bool :=
  if !cfg.autoReconnect || s.isStopped then (s, false)
  else if !s.isConnected && decide (s.initialConnectionAttempts ≥ cfg.maxReconnects) then
    (s, false)
  else ({ s with hasReconnectTimer := true }, true)

/-- The reconnect timer body (lines 156-163): fires only while the slot is
still armed; consumes the slot; if not stopped it bumps
`initialConnectionAttempts` when not connected and then calls `connect()`
(the returned flag says whether `connect()` runs). -/
def StreamManager.reconnectTimerFire (s : SMState) : SMState × Bool :=
  if s.hasReconnectTimer && !s.isStopped then
    ({ s with
        hasReconnectTimer := false
        initialConnectionAttempts :=
          if !s.isConnected then s.initialConnectionAttempts + 1
          else s.initialConnectionAttempts },
     true)
  else ({ s with hasReconnectTimer := false }, false)

/-- Result of one awaited `createEventSource()` call. -/
inductive ConnectOutcome where
  | opened
  | nullSource
  | rejected
deriving DecidableEq

/-- `connect()` (lines 168-230) as one atomic step with the given transport
outcome. Pre-open: the stopped guard, `cleanup()`, `isStopped = false`.
Then: a non-null source installs the transport, sets `isConnected` and fires
`onStart`; a null source just returns; a rejection fires `onError` and either
arms the reconnect timer or, when `scheduleReconnect()` declines, `stop()`s. -/
def StreamManager.connect (cfg : SMConfig) (o : ConnectOutcome) (s : SMState) :
    SMState × List SMEvent :=
  if s.isStopped then (s, [])
  else
    let c := StreamManager.cleanup s
    let s2 : SMState := { c.fst with isStopped := false }
    match o with
    | ConnectOutcome.opened =>
        ({ s2 with hasEventSource := true, isConnected := true },
         c.snd ++ [SMEvent.evOpenAttempt, SMEvent.evOnStart])
    | ConnectOutcome.nullSource =>
        (s2, c.snd ++ [SMEvent.evOpenAttempt])
    | ConnectOutcome.rejected =>
        let e2 := c.snd ++ [SMEvent.evOpenAttempt, SMEvent.evOnError]
        let r := StreamManager.scheduleReconnect cfg s2
        if r.snd then (r.fst, e2)
        else
          let st := StreamManager.stop r.fst
          (st.fst, e2 ++ st.snd)

/-- The `source.onerror` handler (lines 208-219) as one step: the stopped
guard, `onError`, `cleanup()`, then `scheduleReconnect()` or `stop()`. -/
def StreamManager.onTransportError (cfg : SMConfig) (s : SMState) :
    SMState × List SMEvent :=
  if s.isStopped then (s, [])
  else
    let c := StreamManager.cleanup s
    let r := StreamManager.scheduleReconnect cfg c.fst
    if r.snd then (r.fst, SMEvent.evOnError :: c.snd)
    else
      let st := StreamManager.stop r.fst
      (st.fst, SMEvent.evOnError :: c.snd ++ st.snd)

/-- Drive repeated connection attempts from an outcome script: run
`connect()` on the head outcome; while the attempt leaves a reconnect timer
armed, fire it and continue with the tail. Stops when no timer is armed
(successful open, silent null return, or permanent stop). -/
def driveConnects (cfg : SMConfig) : SMState → List ConnectOutcome →
    SMState × List SMEvent
  | s, [] => (s, [])
  | s, o :: rest =>
    let c := StreamManager.connect cfg o s
    if c.fst.hasReconnectTimer then
      let f := StreamManager.reconnectTimerFire c.fst
      if f.snd then
        let d := driveConnects cfg f.fst rest
        (d.fst, c.snd ++ d.snd)
      else (f.fst, c.snd)
    else c

/-- Drive a connected channel through repeated transport-error cycles: each
cycle is one `onerror` firing; while a reconnect timer is armed the timer
fires and the reopened transport succeeds, then the next error arrives. -/
def driveErrorCycles (cfg : SMConfig) : SMState → Nat → SMState × List SMEvent
  | s, 0 => (s, [])
  | s, k + 1 =>
    let e := StreamManager.onTransportError cfg s
    if e.fst.hasReconnectTimer then
      let f := StreamManager.reconnectTimerFire e.fst
      if f.snd then
        let c := StreamManager.connect cfg ConnectOutcome.opened f.fst
        let d := driveErrorCycles cfg c.fst k
        (d.fst, e.snd ++ c.snd ++ d.snd)
      else (f.fst, e.snd)
    else e

/-- The all-flags-clear state with a given attempt counter: the state a
never-yet-connected channel is in between a failed attempt's reconnect-timer
firing and the next `connect()`. -/
def failState (a : Nat) : SMState :=
  { initialConnectionAttempts := a
    isConnected := false
    isStopped := false
    hasReconnectTimer := false
    hasStopTimer := false
    hasEventSource := false }

/-! ### The `run()` promise of `src/client.ts` -/

/-- Settlement state of the single promise `run()` returns. -/
inductive RunPromise where
  | pending
  | resolved
  | rejected
deriving DecidableEq

/-- `reject(error)`: settles a pending promise, no-op afterwards. -/
def rejectPromise : RunPromise → RunPromise
  | RunPromise.pending => RunPromise.rejected
  | p => p

/-- The `source.onerror` handler with `run()`'s `onError` callback
(`src/client.ts` lines 336-339) inlined: `this.options.onError?.(error)`
runs `reject(error); streamManager.stop()`, then the handler continues with
`cleanup()` and `scheduleReconnect()` (which now sees a stopped manager)
or `stop()`. -/
def runOnTransportError (cfg : SMConfig) (s : SMState) (p : RunPromise) :
    SMState × RunPromise × List SMEvent :=
  if s.isStopped then (s, p, [])
  else
    let p1 := rejectPromise p
    let st1 := StreamManager.stop s
    let c := StreamManager.cleanup st1.fst
    let r := StreamManager.scheduleReconnect cfg c.fst
    if r.snd then (r.fst, p1, SMEvent.evOnError :: st1.snd ++ c.snd)
    else
      let st2 := StreamManager.stop r.fst
      (st2.fst, p1, SMEvent.evOnError :: st1.snd ++ c.snd ++ st2.snd)

/-! ### The `PollManager` polling loop of `src/http/poll.ts` -/

/-- Constructor option driving the give-up policy (`maxRetries`; the
constructor always fills the default, so it is total here). -/
structure PMConfig where
  maxRetries : Nat

/-- The mutable fields of a `PollManager` instance. -/
structure PMState where
  consecutiveErrors : Nat
  isStopped : Bool
  polling : Bool
  hasInterval : Bool
  hasRetryTimeout : Bool
deriving DecidableEq

/-- Callback invocations of the polling loop, in program order. -/
inductive PMEvent where
  | evPollOnData
  | evPollOnError
  | evPollOnStart
  | evPollOnStop
deriving DecidableEq

/-- Field initializers of a fresh `PollManager` (it is created stopped). -/
def initialPMState : PMState :=
  { consecutiveErrors := 0
    isStopped := true
    polling := false
    hasInterval := false
    hasRetryTimeout := false }

/-- `start()`: guarded on already running; resets the error counter, fires
`onStart`, and arms the interval. The immediate first poll it issues is the
first element of the outcome script handed to `runPolls`. -/
def PollManager.start (s : PMState) : PMState × List PMEvent :=
  if !s.isStopped then (s, [])
  else
    ({ s with isStopped := false, consecutiveErrors := 0, hasInterval := true },
     [PMEvent.evPollOnStart])

/-- `stop()`: guarded on already stopped; clears the timers (`cleanup()`)
and fires `onStop` once. -/
def PollManager.stop (s : PMState) : PMState × List PMEvent :=
  if s.isStopped then (s, [])
  else
    ({ s with isStopped := true, hasInterval := false, hasRetryTimeout := false },
     [PMEvent.evPollOnStop])

/-- Result of one awaited `pollFunction()` call. -/
inductive PollOutcome where
  | success
  | failure
deriving DecidableEq

/-- `poll()` as one atomic step with the given poll outcome: the overlap and
stopped guards; success resets the consecutive-error counter and fires
`onData`; failure bumps the counter, fires `onError`, and `stop()`s once the
counter reaches `maxRetries`. (`polling` is set across the await and cleared
before the callbacks run; within an atomic step it ends where it began, and
the post-await stopped re-check cannot observe a change.) -/
def PollManager.poll (cfg : PMConfig) (o : PollOutcome) (s : PMState) :
    PMState × List PMEvent :=
  if s.isStopped || s.polling then (s, [])
  else
    match o with
    | PollOutcome.success =>
        ({ s with consecutiveErrors := 0 }, [PMEvent.evPollOnData])
    | PollOutcome.failure =>
        let s1 : PMState := { s with consecutiveErrors := s.consecutiveErrors + 1 }
        if decide (s1.consecutiveErrors ≥ cfg.maxRetries) then
          let st := PollManager.stop s1
          (st.fst, PMEvent.evPollOnError :: st.snd)
        else (s1, [PMEvent.evPollOnError])

/-- Run a sequence of poll cycles from an outcome script. -/
def runPolls (cfg : PMConfig) : PMState → List PollOutcome →
    PMState × List PMEvent
  | s, [] => (s, [])
  | s, o :: rest =>
    let p := PollManager.poll cfg o s
    let r := runPolls cfg p.fst rest
    (r.fst, p.snd ++ r.snd)

/-! ### Client tool dispatch of `updateMessage` in `src/agent/actions.ts` -/

/-- Tool invocation type: the dispatcher compares against `ToolTypeClient`
(declared in the SDK's generated types module); all other values behave
alike. -/
inductive ToolType where
  | client
  | other
deriving DecidableEq

/-- Tool invocation status: the dispatcher compares against
`ToolInvocationStatusAwaitingInput`; all other values behave alike. -/
inductive ToolInvStatus where
  | awaitingInput
  | other
deriving DecidableEq

/-- One entry of `message.tool_invocations` (`ty` is the source's `type`
field). -/
structure ToolInvocation where
  id : String
  ty : ToolType
  status : ToolInvStatus
  functionName : String
deriving DecidableEq

/-- Behaviour of a registered client tool handler when invoked: return a
string (directly or via a resolved promise), throw synchronously, or return
a promise that rejects. -/
inductive HandlerBehavior where
  | ret (result : String)
  | throwSync
  | rejectAsync
deriving DecidableEq

/-- Observable effects of dispatching one message's invocations:
handler calls, `api.submitToolResult` calls (with the plain result, the
structured `not_available` JSON, or the structured `{error}` JSON), and a
synchronous exception escaping `updateMessage`. -/
inductive DispatchEvent where
  | handlerInvoked (id : String)
  | submitResult (id : String) (result : String)
  | submitNotAvailable (id : String)
  | submitErrorResult (id : String)
  | exceptionPropagated (id : String)
deriving DecidableEq

/-- First-match lookup in the handler map (`clientToolHandlers.get`). -/
def lookupHandler : List (String × HandlerBehavior) → String →
    Option HandlerBehavior
  | [], _ => none
  | (n, h) :: rest, name => if n == name then some h else lookupHandler rest name

/-- The loop body of `updateMessage` (lines 60-98) for one invocation:
non-client or non-awaiting invocations are ignored; an id already in
`dispatchedToolInvocations` is skipped; otherwise the id is added first,
then a missing handler submits the `not_available` result;
`Promise.resolve(handler(args)).then(...).catch(...)` submits the returned
string or, on rejection, the structured error result — but a handler that
throws synchronously throws out of `Promise.resolve`'s argument position,
so the exception escapes (the returned flag) with nothing submitted. -/
def processInvocation (handlers : List (String × HandlerBehavior))
    (dispatched : List String) (inv : ToolInvocation) :
    List String × List DispatchEvent × Bool :=
  if inv.ty == ToolType.client && inv.status == ToolInvStatus.awaitingInput then
    if dispatched.contains inv.id then (dispatched, [], false)
    else
      let dispatched1 := inv.id :: dispatched
      match lookupHandler handlers inv.functionName with
      | none =>
          (dispatched1, [DispatchEvent.submitNotAvailable inv.id], false)
      | some (HandlerBehavior.ret r) =>
          (dispatched1,
           [DispatchEvent.handlerInvoked inv.id,
            DispatchEvent.submitResult inv.id r], false)
      | some HandlerBehavior.throwSync =>
          (dispatched1,
           [DispatchEvent.handlerInvoked inv.id,
            DispatchEvent.exceptionPropagated inv.id], true)
      | some HandlerBehavior.rejectAsync =>
          (dispatched1,
           [DispatchEvent.handlerInvoked inv.id,
            DispatchEvent.submitErrorResult inv.id], false)
  else (dispatched, [], false)

/-- The `for` loop over `message.tool_invocations`: a synchronous handler
exception aborts the rest of the loop. -/
def processInvocationList (handlers : List (String × HandlerBehavior)) :
    List String → List ToolInvocation → List String × List DispatchEvent
  | dispatched, [] => (dispatched, [])
  | dispatched, inv :: rest =>
    let p := processInvocation handlers dispatched inv
    if p.snd.snd then (p.fst, p.snd.fst)
    else
      let r := processInvocationList handlers p.fst rest
      (r.fst, p.snd.fst ++ r.snd)

/-- One delivered message update, as consumed by `updateMessage`. -/
structure MessageUpdate where
  chatId : String
  invocations : List ToolInvocation
deriving DecidableEq

/-- `updateMessage` (lines 51-99), restricted to its tool-dispatch effect:
a message for another chat returns immediately; the dispatch loop runs only
when a chat id is set and `clientToolHandlers.size > 0`; the Redux dispatch
of the message itself is outside this model. The `dispatched` argument and
first component of the result are the module-level
`dispatchedToolInvocations` set. -/
def updateMessage (currentChatId : Option String)
    (handlers : List (String × HandlerBehavior))
    (dispatched : List String) (msg : MessageUpdate) :
    List String × List DispatchEvent :=
  if currentChatId == some msg.chatId then
    if handlers.isEmpty then (dispatched, [])
    else processInvocationList handlers dispatched msg.invocations
  else (dispatched, [])

/-! ### Derived observation helpers -/

/-- Payloads of the `onData` invocations within an `onmessage` event list. -/
def onDataPayloads (events : List CbEvent) : List JsonVal :=
  events.filterMap (fun e =>
    match e with
    | CbEvent.onDataEvt v => some v
    | _ => none)

/-- The event trace of a never-connecting channel that has `d` more budgeted
reconnects before exhaustion: `d` failed cycles of
cleanup-`onStop` / open attempt / `onError`, then the final failed attempt
whose declined reschedule ends in `stop()`'s `onStop`. -/
def rejectTrace : Nat → List SMEvent
  | 0 => [SMEvent.evOnStop, SMEvent.evOpenAttempt, SMEvent.evOnError,
          SMEvent.evOnStop]
  | d + 1 => [SMEvent.evOnStop, SMEvent.evOpenAttempt, SMEvent.evOnError] ++
      rejectTrace d

/-! ### Helper lemmas -/

/-- If no entry key matches, the lookup misses. -/
theorem lookupKey_eq_none_of_any_eq_false (entries : List (String × JsonVal))
    (k : String) (h : entries.any (fun e => e.fst == k) = false) :
    lookupKey entries k = none := by
  induction entries with
  | nil => rfl
  | cons hd tl ih =>
      simp only [List.any_cons, Bool.or_eq_false_iff] at h
      simp only [lookupKey, h.1, if_false]
      exact ih h.2

/-- The source predicate, rewritten as object-shape plus the two key checks
(the `data` value itself is never inspected). -/
theorem isPartialDataWrapper_eq (parsed : JsonVal) :
    isPartialDataWrapper parsed =
      (isObjVal parsed && jsHasKey parsed "data" &&
       isArrayVal (jsGetKey parsed "fields")) := by
  cases parsed with
  | obj entries =>
      simp only [isPartialDataWrapper, jsTypeofIsObject, isNullVal, jsHasKey,
        jsGetKey, isObjVal, Bool.not_false, Bool.true_and]
      cases h2 : entries.any (fun e => e.fst == "fields") with
      | true => simp
      | false =>
          rw [lookupKey_eq_none_of_any_eq_false entries "fields" h2]
          simp [isArrayVal]
  | null => rfl
  | bool b => rfl
  | num n => rfl
  | str s => rfl
  | arr elems => rfl

/-- `scheduleReconnect` either arms the timer or declines leaving the state
unchanged. -/
theorem scheduleReconnect_cases (cfg : SMConfig) (s : SMState) :
    StreamManager.scheduleReconnect cfg s
        = ({ s with hasReconnectTimer := true }, true) ∨
      StreamManager.scheduleReconnect cfg s = (s, false) := by
  unfold StreamManager.scheduleReconnect
  split
  · exact Or.inr rfl
  · split
    · exact Or.inr rfl
    · exact Or.inl rfl

/-! ### C5 -/

/-- C5, counterexample: the message `{data: 5, fields: []}` is classified
Partial by the code although its `data` value is not an object, refuting the
claimed predicate "has `data`: object AND has `fields`: array". -/
theorem c5_counterexample :
    ¬ (classifyMessage (JsonVal.obj [("data", JsonVal.num 5),
          ("fields", JsonVal.arr [])]) = UpdateKind.partialUpdate ↔
       isPartialSpecPredicate (JsonVal.obj [("data", JsonVal.num 5),
          ("fields", JsonVal.arr [])]) = true) := by
  decide

/-- C5, amended: a parsed message is classified Partial iff it is a plain
object that has a `data` property of any type and a `fields` property whose
value is an array; the `data` value is never required to be an object. -/
theorem c5_partial_iff_presence_shape (parsed : JsonVal) :
    classifyMessage parsed = UpdateKind.partialUpdate ↔
      (isObjVal parsed = true ∧ jsHasKey parsed "data" = true ∧
       isArrayVal (jsGetKey parsed "fields") = true) := by
  cases hb : isPartialDataWrapper parsed with
  | true =>
      have hcl : classifyMessage parsed = UpdateKind.partialUpdate := by
        simp [classifyMessage, hb]
      rw [hcl]
      rw [isPartialDataWrapper_eq] at hb
      simp only [Bool.and_eq_true] at hb
      exact iff_of_true rfl ⟨hb.1.1, hb.1.2, hb.2⟩
  | false =>
      have hcl : classifyMessage parsed = UpdateKind.fullUpdate := by
        simp [classifyMessage, hb]
      rw [hcl]
      rw [isPartialDataWrapper_eq] at hb
      constructor
      · intro hcontra
        exact absurd hcontra (by decide)
      · intro hc
        rw [hc.1, hc.2.1, hc.2.2] at hb
        exact absurd hb (by decide)

/-! ### C4 -/

/-- C4, counterexample: calling `stop()` twice on a fresh channel fires
`onStop` twice, not once — `stop()` has no already-stopped guard and
`cleanup()` calls `onStop` unconditionally. -/
theorem c4_counterexample :
    ((StreamManager.stop newSMState).snd ++
      (StreamManager.stop (StreamManager.stop newSMState).fst).snd).count
        SMEvent.evOnStop = 2 := by
  decide

/-- C4, amended: `stop()` is idempotent on the channel state (a second call
leaves the state unchanged) and raises no error, but each call fires
`onStop` once, so two calls fire it twice. -/
theorem c4_stop_idempotent_state_onStop_per_call (s : SMState) :
    (StreamManager.stop s).snd = [SMEvent.evOnStop] ∧
    StreamManager.stop (StreamManager.stop s).fst
      = ((StreamManager.stop s).fst, [SMEvent.evOnStop]) := by
  exact ⟨rfl, rfl⟩

/-! ### C2 -/

/-- C2: the code at the failing input. A channel with the default budget
(`maxReconnects = 5`) that connects successfully once and then receives 10
consecutive transport errors performs only 5 reconnect attempts and is
permanently stopped — `cleanup()` resets `isConnected` before
`scheduleReconnect()` consults it, so post-success errors still count
against and exhaust the pre-first-success budget, contradicting the code's
own comment that a previously successful connection always reconnects. -/
theorem c2_post_success_errors_exhaust_budget :
    (driveErrorCycles ⟨true, 5⟩
        (StreamManager.connect ⟨true, 5⟩ ConnectOutcome.opened newSMState).fst
        10).fst.isStopped = true ∧
    ((driveErrorCycles ⟨true, 5⟩
        (StreamManager.connect ⟨true, 5⟩ ConnectOutcome.opened newSMState).fst
        10).snd).count SMEvent.evOpenAttempt = 5 := by
  decide

/-! ### C7 -/

/-- C7, counterexample: on a fresh channel with budget available,
`createEventSource()` resolving to null makes `connect()` return silently —
no `onError`, no reconnect timer, channel not stopped — unlike the claimed
transport-error treatment. -/
theorem c7_counterexample :
    SMEvent.evOnError ∉
      (StreamManager.connect ⟨true, 5⟩ ConnectOutcome.nullSource newSMState).snd ∧
    (StreamManager.connect ⟨true, 5⟩ ConnectOutcome.nullSource
        newSMState).fst.hasReconnectTimer = false ∧
    (StreamManager.connect ⟨true, 5⟩ ConnectOutcome.nullSource
        newSMState).fst.isStopped = false := by
  decide

/-- C7, amended: a rejecting `createEventSource()` is treated as a transport
error — `onError` fires and the attempt ends with either an armed reconnect
timer or a permanent stop — but a null source makes `connect()` return
silently: no `onError`, no reconnect timer, and the channel is left
un-stopped. -/
theorem c7_reject_retries_null_silent (cfg : SMConfig) (s : SMState)
    (h : s.isStopped = false) :
    (SMEvent.evOnError ∈
        (StreamManager.connect cfg ConnectOutcome.rejected s).snd ∧
      ((StreamManager.connect cfg ConnectOutcome.rejected
          s).fst.hasReconnectTimer = true ∨
       (StreamManager.connect cfg ConnectOutcome.rejected
          s).fst.isStopped = true)) ∧
    (SMEvent.evOnError ∉
        (StreamManager.connect cfg ConnectOutcome.nullSource s).snd ∧
     (StreamManager.connect cfg ConnectOutcome.nullSource
        s).fst.hasReconnectTimer = false ∧
     (StreamManager.connect cfg ConnectOutcome.nullSource
        s).fst.isStopped = false) := by
  unfold StreamManager.connect
  simp only [h, Bool.false_eq_true, if_false, StreamManager.cleanup,
    StreamManager.clearTimeouts, StreamManager.closeEventSource]
  refine ⟨?_, ?_⟩
  · rcases scheduleReconnect_cases cfg
        ⟨s.initialConnectionAttempts, false, false, false, false, false⟩ with
        hs | hs <;>
      rw [hs] <;>
      simp [StreamManager.stop, StreamManager.cleanup,
        StreamManager.clearTimeouts, StreamManager.closeEventSource]
  · simp

/-- C7, witness: the amended theorem at a fresh channel with the default
configuration. -/
theorem c7_reject_retries_null_silent_witness :
    newSMState.isStopped = false ∧
    (StreamManager.connect ⟨true, 5⟩ ConnectOutcome.nullSource
        newSMState).fst.isStopped = false :=
  ⟨by decide,
   (c7_reject_retries_null_silent ⟨true, 5⟩ newSMState (by decide)).2.2.2⟩

/-! ### C10 -/

/-- C10: on any not-stopped channel, `connect()` synchronously runs
`cleanup()` first, so its very first emitted callback is `onStop`,
before the single `createEventSource()` call of the attempt — hence
`onStop` fires at the start of the first connection and of every
reconnect cycle, not only at a permanent stop. -/
theorem c10_connect_fires_onStop_before_open (cfg : SMConfig)
    (o : ConnectOutcome) (s : SMState) (h : s.isStopped = false) :
    ((StreamManager.connect cfg o s).snd).head? = some SMEvent.evOnStop ∧
    ((StreamManager.connect cfg o s).snd).count SMEvent.evOpenAttempt = 1 := by
  unfold StreamManager.connect
  simp only [h, Bool.false_eq_true, if_false, StreamManager.cleanup,
    StreamManager.clearTimeouts, StreamManager.closeEventSource]
  cases o with
  | opened =>
      simp
  | nullSource =>
      simp
  | rejected =>
      rcases scheduleReconnect_cases cfg
          ⟨s.initialConnectionAttempts, false, false, false, false, false⟩ with
          hs | hs <;>
        rw [hs] <;>
        simp [StreamManager.stop, StreamManager.cleanup,
          StreamManager.clearTimeouts, StreamManager.closeEventSource,
          List.count_cons]

/-- C10, witness: the first connection of a fresh channel emits `onStop`
first. -/
theorem c10_connect_fires_onStop_before_open_witness :
    newSMState.isStopped = false ∧
    ((StreamManager.connect ⟨true, 5⟩ ConnectOutcome.opened
        newSMState).snd).head? = some SMEvent.evOnStop :=
  ⟨by decide,
   (c10_connect_fires_onStop_before_open ⟨true, 5⟩ ConnectOutcome.opened
      newSMState (by decide)).1⟩

/-! ### C1 -/

/-- C1, counterexample: a waited run whose channel connected once and whose
reconnect budget is untouched (0 of 5 attempts used) still has its promise
rejected by the very first transport error. -/
theorem c1_counterexample :
    (runOnTransportError ⟨true, 5⟩
        (StreamManager.connect ⟨true, 5⟩ ConnectOutcome.opened newSMState).fst
        RunPromise.pending).snd.fst = RunPromise.rejected ∧
    (StreamManager.connect ⟨true, 5⟩ ConnectOutcome.opened
        newSMState).fst.initialConnectionAttempts = 0 := by
  decide

/-- C1, amended: for every run with wait enabled, any transport error
(connection or parse failure) surfaced through `onError` immediately rejects
the pending run promise and stops the channel; the reconnect budget never
produces a retry for a waited run, because `run()`'s `onError` stops the
manager before `scheduleReconnect()` is consulted. -/
theorem c1_transport_error_rejects_run (cfg : SMConfig) (s : SMState)
    (h : s.isStopped = false) :
    (runOnTransportError cfg s RunPromise.pending).snd.fst
        = RunPromise.rejected ∧
    (runOnTransportError cfg s RunPromise.pending).fst.isStopped = true ∧
    (runOnTransportError cfg s RunPromise.pending).fst.hasReconnectTimer
        = false := by
  unfold runOnTransportError
  simp [h, rejectPromise, StreamManager.stop, StreamManager.cleanup,
    StreamManager.clearTimeouts, StreamManager.closeEventSource,
    StreamManager.scheduleReconnect]

/-- C1, witness: the amended theorem on a fresh connected channel with the
default configuration. -/
theorem c1_transport_error_rejects_run_witness :
    newSMState.isStopped = false ∧
    (runOnTransportError ⟨true, 5⟩ newSMState RunPromise.pending).snd.fst
        = RunPromise.rejected :=
  ⟨by decide, (c1_transport_error_rejects_run ⟨true, 5⟩ newSMState (by decide)).1⟩

/-! ### C8 -/

/-- C8: for every message matching the Partial shape, in both `StreamManager`
generations every `onData` invocation carries the unwrapped inner `data`
value (the payload list is empty or exactly the unwrapped value), never the
raw envelope; and when `onData` is not registered, no `onData` invocation
occurs at all. -/
theorem c8_onData_gets_unwrapped (hasOnData hasOnPartialData : Bool)
    (parsed : JsonVal) (hp : isPartialDataWrapper parsed = true) :
    (onDataPayloads (onMessageHttpStream hasOnData hasOnPartialData parsed) = []
       ∨ onDataPayloads (onMessageHttpStream hasOnData hasOnPartialData parsed)
           = [unwrapData parsed]) ∧
    (onDataPayloads (onMessageRootStream hasOnData hasOnPartialData parsed) = []
       ∨ onDataPayloads (onMessageRootStream hasOnData hasOnPartialData parsed)
           = [unwrapData parsed]) ∧
    (hasOnData = false →
      onDataPayloads (onMessageHttpStream hasOnData hasOnPartialData parsed)
          = [] ∧
      onDataPayloads (onMessageRootStream hasOnData hasOnPartialData parsed)
          = []) := by
  cases hasOnData <;> cases hasOnPartialData <;>
    simp [onMessageHttpStream, onMessageRootStream, hp, onDataPayloads]

/-- C8, witness: the theorem on the Partial-shaped message
`{data: "x", fields: []}` with only `onPartialData` registered. -/
theorem c8_onData_gets_unwrapped_witness :
    isPartialDataWrapper (JsonVal.obj [("data", JsonVal.str "x"),
        ("fields", JsonVal.arr [])]) = true ∧
    (onDataPayloads (onMessageHttpStream false true
        (JsonVal.obj [("data", JsonVal.str "x"), ("fields", JsonVal.arr [])]))
          = [] ∨
     onDataPayloads (onMessageHttpStream false true
        (JsonVal.obj [("data", JsonVal.str "x"), ("fields", JsonVal.arr [])]))
          = [unwrapData (JsonVal.obj [("data", JsonVal.str "x"),
              ("fields", JsonVal.arr [])])]) :=
  ⟨by decide,
   (c8_onData_gets_unwrapped false true
      (JsonVal.obj [("data", JsonVal.str "x"), ("fields", JsonVal.arr [])])
      (by decide)).1⟩

/-! ### C9 -/

/-- C9: one poll cycle of an active, non-overlapping channel — success
resets the consecutive-error counter to zero and fires `onData` only;
failure increments the counter, fires `onError` first, stops the channel
exactly when the counter reaches `maxRetries`; and the claim's scenario —
`maxRetries = 5` with three failures then a success — fires `onData` exactly
once, on the fourth attempt, leaving the channel active. -/
theorem c9_poll_cycle (cfg : PMConfig) (s : PMState)
    (h1 : s.isStopped = false) (h2 : s.polling = false) :
    ((PollManager.poll cfg PollOutcome.success s).fst.consecutiveErrors = 0 ∧
     (PollManager.poll cfg PollOutcome.success s).snd
        = [PMEvent.evPollOnData]) ∧
    ((PollManager.poll cfg PollOutcome.failure s).fst.consecutiveErrors
        = s.consecutiveErrors + 1 ∧
     (PollManager.poll cfg PollOutcome.failure s).snd.head?
        = some PMEvent.evPollOnError ∧
     (s.consecutiveErrors + 1 ≥ cfg.maxRetries →
        (PollManager.poll cfg PollOutcome.failure s).fst.isStopped = true) ∧
     (s.consecutiveErrors + 1 < cfg.maxRetries →
        (PollManager.poll cfg PollOutcome.failure s).fst.isStopped = false)) ∧
    ((runPolls ⟨5⟩ (PollManager.start initialPMState).fst
        [PollOutcome.failure, PollOutcome.failure, PollOutcome.failure,
         PollOutcome.success]).snd.count PMEvent.evPollOnData = 1 ∧
     (runPolls ⟨5⟩ (PollManager.start initialPMState).fst
        [PollOutcome.failure, PollOutcome.failure,
         PollOutcome.failure]).snd.count PMEvent.evPollOnData = 0 ∧
     (runPolls ⟨5⟩ (PollManager.start initialPMState).fst
        [PollOutcome.failure, PollOutcome.failure, PollOutcome.failure,
         PollOutcome.success]).fst.isStopped = false) := by
  refine ⟨?_, ?_, by decide⟩
  · unfold PollManager.poll
    simp [h1, h2]
  · unfold PollManager.poll
    simp only [h1, h2, Bool.or_self, Bool.false_eq_true, if_false]
    by_cases hge : s.consecutiveErrors + 1 ≥ cfg.maxRetries
    · simp [hge, PollManager.stop, h1]
    · simp [hge, h1]

/-- C9, witness: the theorem right after `start()`, with `maxRetries = 5`. -/
theorem c9_poll_cycle_witness :
    (PollManager.start initialPMState).fst.isStopped = false ∧
    (PollManager.poll ⟨5⟩ PollOutcome.success
        (PollManager.start initialPMState).fst).fst.consecutiveErrors = 0 :=
  ⟨by decide,
   (c9_poll_cycle ⟨5⟩ (PollManager.start initialPMState).fst
      (by decide) (by decide)).1.1⟩

/-! ### C6 -/

/-- A budgeted failed attempt: `connect()` on an idle unconnected channel
whose attempt counter is below the budget cleans up, fails, fires `onError`
and arms the reconnect timer. -/
theorem connect_rejected_budget (N a : Nat) (h : a < N) :
    StreamManager.connect ⟨true, N⟩ ConnectOutcome.rejected
        ⟨a, false, false, false, false, false⟩
      = (⟨a, false, false, true, false, false⟩,
         [SMEvent.evOnStop, SMEvent.evOpenAttempt, SMEvent.evOnError]) := by
  have hd : decide (a ≥ N) = false := decide_eq_false_iff_not.mpr (by omega)
  unfold StreamManager.connect StreamManager.cleanup StreamManager.clearTimeouts
    StreamManager.closeEventSource StreamManager.scheduleReconnect
  simp [hd]

/-- An exhausted failed attempt: with the counter at or past the budget the
declined reschedule ends in `stop()`. -/
theorem connect_rejected_exhausted (N a : Nat) (h : N ≤ a) :
    StreamManager.connect ⟨true, N⟩ ConnectOutcome.rejected
        ⟨a, false, false, false, false, false⟩
      = (⟨a, false, true, false, false, false⟩,
         [SMEvent.evOnStop, SMEvent.evOpenAttempt, SMEvent.evOnError,
          SMEvent.evOnStop]) := by
  have hd : decide (a ≥ N) = true := decide_eq_true (by omega)
  unfold StreamManager.connect StreamManager.cleanup StreamManager.clearTimeouts
    StreamManager.closeEventSource StreamManager.scheduleReconnect
    StreamManager.stop
  simp [hd, StreamManager.cleanup, StreamManager.clearTimeouts,
    StreamManager.closeEventSource]

/-- An armed reconnect timer on an unconnected channel fires: the attempt
counter is bumped and `connect()` runs. -/
theorem reconnectTimerFire_armed (a : Nat) :
    StreamManager.reconnectTimerFire ⟨a, false, false, true, false, false⟩
      = (⟨a + 1, false, false, false, false, false⟩, true) := rfl

/-- `rejectTrace d` contains exactly `d + 1` open attempts. -/
theorem rejectTrace_count (d : Nat) :
    (rejectTrace d).count SMEvent.evOpenAttempt = d + 1 := by
  induction d with
  | zero => decide
  | succ d ih =>
      simp [rejectTrace, List.count_cons, List.count_append, ih]

/-- `rejectTrace d` ends with the final `stop()`'s `onStop`. -/
theorem rejectTrace_getLast (d : Nat) :
    (rejectTrace d).getLast? = some SMEvent.evOnStop := by
  induction d with
  | zero => decide
  | succ d ih =>
      have hne : rejectTrace d ≠ [] := by
        cases d <;> simp [rejectTrace]
      rw [rejectTrace, List.getLast?_append_of_ne_nil _ hne, ih]

/-- Driving a never-connecting channel: from an idle unconnected state with
`d` budgeted attempts left (counter `a`, budget `N = a + d`) and enough
rejections in the script, the channel performs exactly the trace
`rejectTrace d` and ends permanently stopped. -/
theorem driveConnects_rejects (N : Nat) :
    ∀ d a M, a + d = N → d < M →
      driveConnects ⟨true, N⟩ ⟨a, false, false, false, false, false⟩
          (List.replicate M ConnectOutcome.rejected)
        = (⟨N, false, true, false, false, false⟩, rejectTrace d) := by
  intro d
  induction d with
  | zero =>
      intro a M ha hM
      have haN : a = N := by omega
      subst haN
      obtain ⟨M2, rfl⟩ : ∃ M2, M = M2 + 1 := ⟨M - 1, by omega⟩
      rw [List.replicate_succ]
      simp only [driveConnects, connect_rejected_exhausted a a (le_refl a)]
      simp [rejectTrace]
  | succ d ih =>
      intro a M ha hM
      obtain ⟨M2, rfl⟩ : ∃ M2, M = M2 + 1 := ⟨M - 1, by omega⟩
      rw [List.replicate_succ]
      simp only [driveConnects, connect_rejected_budget N a (by omega)]
      simp only [reconnectTimerFire_armed]
      simp only [ih (a + 1) M2 (by omega) (by omega)]
      simp [rejectTrace]

/-- C6: with `maxReconnects = N` and a transport that always fails to open,
the channel makes the initial attempt plus exactly `N` reconnect attempts
(`N + 1` `createEventSource()` calls in total, however many further
rejections the script holds), ends permanently stopped, and the last
callback fired is `onStop`. -/
theorem c6_budget_exhaustion_exact (N M : Nat) (h : N < M) :
    ((driveConnects ⟨true, N⟩ newSMState
        (List.replicate M ConnectOutcome.rejected)).snd).count
          SMEvent.evOpenAttempt = N + 1 ∧
    (driveConnects ⟨true, N⟩ newSMState
        (List.replicate M ConnectOutcome.rejected)).fst.isStopped = true ∧
    ((driveConnects ⟨true, N⟩ newSMState
        (List.replicate M ConnectOutcome.rejected)).snd).getLast?
      = some SMEvent.evOnStop := by
  have hd := driveConnects_rejects N N 0 M (by omega) (by omega)
  have hnew : newSMState = ⟨0, false, false, false, false, false⟩ := rfl
  rw [hnew, hd]
  exact ⟨rejectTrace_count N, rfl, rejectTrace_getLast N⟩

/-- C6, witness: `maxReconnects = 2` with a script of five rejections gives
exactly three open attempts. -/
theorem c6_budget_exhaustion_exact_witness :
    2 < 5 ∧
    ((driveConnects ⟨true, 2⟩ newSMState
        (List.replicate 5 ConnectOutcome.rejected)).snd).count
          SMEvent.evOpenAttempt = 2 + 1 :=
  ⟨by decide, (c6_budget_exhaustion_exact 2 5 (by decide)).1⟩

/-! ### C3 -/

/-- C3, counterexample: with no client tool handlers registered, a client
awaiting-input invocation gets no result at all (the dispatch loop is
guarded by `clientToolHandlers.size > 0`) and its id is never marked
dispatched; and a handler that throws synchronously lets the exception
escape `updateMessage` with no structured error result submitted. -/
theorem c3_counterexample :
    updateMessage (some "chat1") [] []
        ⟨"chat1", [⟨"inv1", ToolType.client, ToolInvStatus.awaitingInput,
          "fn"⟩]⟩
      = ([], []) ∧
    (updateMessage (some "chat1") [("g", HandlerBehavior.throwSync)] []
        ⟨"chat1", [⟨"inv2", ToolType.client, ToolInvStatus.awaitingInput,
          "g"⟩]⟩).snd
      = [DispatchEvent.handlerInvoked "inv2",
         DispatchEvent.exceptionPropagated "inv2"] := by
  decide

/-- C3, amended: for a client awaiting-input invocation in a message for the
current chat, provided at least one client tool handler is registered:
the id is added to the dispatched set before its handler runs (so it is
marked even when the handler throws), a redelivered id triggers no further
handler call or result, a missing handler yields exactly one structured
not-available result, a handler returning (or resolving to) a string yields
exactly one plain result, and a handler whose promise rejects yields exactly
one structured error result with no exception; however a handler that throws
synchronously propagates the exception and submits nothing, and with an
empty handler map the invocation is not dispatched at all. -/
theorem c3_dispatch_at_most_once (cid : String)
    (handlers : List (String × HandlerBehavior)) (dispatched : List String)
    (inv : ToolInvocation) (hty : inv.ty = ToolType.client)
    (hst : inv.status = ToolInvStatus.awaitingInput) :
    (handlers.isEmpty = true →
      updateMessage (some cid) handlers dispatched ⟨cid, [inv]⟩
        = (dispatched, [])) ∧
    (handlers.isEmpty = false →
      (dispatched.contains inv.id = true →
        updateMessage (some cid) handlers dispatched ⟨cid, [inv]⟩
          = (dispatched, [])) ∧
      (dispatched.contains inv.id = false →
        (lookupHandler handlers inv.functionName = none →
          updateMessage (some cid) handlers dispatched ⟨cid, [inv]⟩
            = (inv.id :: dispatched,
               [DispatchEvent.submitNotAvailable inv.id])) ∧
        (∀ r, lookupHandler handlers inv.functionName
              = some (HandlerBehavior.ret r) →
          updateMessage (some cid) handlers dispatched ⟨cid, [inv]⟩
            = (inv.id :: dispatched,
               [DispatchEvent.handlerInvoked inv.id,
                DispatchEvent.submitResult inv.id r])) ∧
        (lookupHandler handlers inv.functionName
              = some HandlerBehavior.rejectAsync →
          updateMessage (some cid) handlers dispatched ⟨cid, [inv]⟩
            = (inv.id :: dispatched,
               [DispatchEvent.handlerInvoked inv.id,
                DispatchEvent.submitErrorResult inv.id])) ∧
        (lookupHandler handlers inv.functionName
              = some HandlerBehavior.throwSync →
          updateMessage (some cid) handlers dispatched ⟨cid, [inv]⟩
            = (inv.id :: dispatched,
               [DispatchEvent.handlerInvoked inv.id,
                DispatchEvent.exceptionPropagated inv.id])))) := by
  constructor
  · intro hemp
    simp [updateMessage, hemp]
  · intro hemp
    constructor
    · intro hdup
      have hdup2 : inv.id ∈ dispatched := by simpa using hdup
      simp [updateMessage, hemp, processInvocationList, processInvocation,
        hty, hst, hdup2]
    · intro hfresh
      have hfresh2 : inv.id ∉ dispatched := by simpa using hfresh
      refine ⟨?_, ?_, ?_, ?_⟩ <;>
        first
        | (intro hlook
           simp [updateMessage, hemp, processInvocationList, processInvocation,
             hty, hst, hfresh2, hlook])
        | (intro r hlook
           simp [updateMessage, hemp, processInvocationList, processInvocation,
             hty, hst, hfresh2, hlook])

/-- C3, witness: the amended theorem at a single fresh invocation whose
handler returns a string. -/
theorem c3_dispatch_at_most_once_witness :
    updateMessage (some "c") [("f", HandlerBehavior.ret "ok")] []
        ⟨"c", [⟨"i", ToolType.client, ToolInvStatus.awaitingInput, "f"⟩]⟩
      = (["i"],
         [DispatchEvent.handlerInvoked "i",
          DispatchEvent.submitResult "i" "ok"]) :=
  ((c3_dispatch_at_most_once "c" [("f", HandlerBehavior.ret "ok")] []
      ⟨"i", ToolType.client, ToolInvStatus.awaitingInput, "f"⟩ rfl
      rfl).2 (by decide)).2 (by decide) |>.2.1 "ok" (by decide)
